import Mathlib

/-!
Shallow embedding of `js/sticky_banner.js` (the StickyBanner widget).

The source is an IIFE populating a global `Kargo` namespace with
  * `Kargo.config`  — constants (default sticky config, style object, selectors),
  * `Kargo.store`   — the registry: one slot for a "top" banner, one for a "bottom" banner,
  * `Kargo.helper`  — pure helpers (`isPropertyEmpty`, `isElementVisible`, string formatting),
  * `Kargo.banner.StickyBanner` — the constructor, plus private functions
    `renderBanner`, `storeBanner`, `hasBanner`, `replaceBanner`, `removeBanner`,
    `getBannerClass`, `getBannerStyle`, `isBlockerVisible`, `setBannerDisplay`.

Modelling conventions:
  * DOM geometry (`getBoundingClientRect`, viewport heights) is abstracted into a
    `Geometry` record; rectangle coordinates are integers (the source only ever
    compares them with `<`, `>=`, so the order structure is what matters).
  * The banners container (`<aside id="kargo-banners">`) is a list of rendered
    banner elements in document order; `document.getElementById` restricted to
    these elements is "first element in the list with that id".
  * `Kargo.helper.generateId` draws a random id; the model supplies fresh ids from
    a counter threaded through the state (`nextId`), which is the uniqueness the
    code relies on.
  * A JavaScript statement that throws (reading a property of `undefined`,
    `removeChild(null)`) is modelled by returning `some JsError.typeError`
    together with the state as mutated up to the throwing statement, since the
    `Kargo` store is global and mutations before a throw persist.
  * An empty slot in `Kargo.store.banners.rendered` is the empty object literal;
    it is modelled as `none`, a filled slot `{html, config}` as `some` of a
    `StoredBanner` carrying the element id and the bound config.
-/

namespace Kargo

/-! ### Geometry and `Kargo.helper` visibility check -/

/-- A bounding client rectangle; only `top` and `bottom` are read by the source. -/
structure Rect where
  top : Int
  bottom : Int
deriving DecidableEq

/-- The ambient page geometry consulted by the visibility controller:
`document.documentElement.clientHeight`, `window.innerHeight`, and the bounding
rectangles (in document order) of the elements matching the `.blocker` selector. -/
structure Geometry where
  clientHeight : Int
  innerHeight : Int
  blockers : List Rect
deriving DecidableEq

/-- `Math.max(document.documentElement.clientHeight, window.innerHeight)` from
`Kargo.helper.isElementVisible`. -/
def viewportHeight (g : Geometry) : Int :=
  max g.clientHeight g.innerHeight

/-- `Kargo.helper.isElementVisible`: `!(rect.bottom < 0 || rect.top - viewHeight >= 0)`. -/
def isElementVisible (viewHeight : Int) (rect : Rect) : Bool :=
  !(decide (rect.bottom < 0) || decide (rect.top - viewHeight ≥ 0))

/-- `isBlockerVisible`: loops over all elements of the blocker class with a
`value` accumulator initialized to `false`, setting it to `true` whenever one
of them is visible. -/
def isBlockerVisible (g : Geometry) : Bool :=
  g.blockers.foldl
    (fun value blocker => if isElementVisible (viewportHeight g) blocker then true else value)
    false

/-- `Kargo.helper.cleanSelector`: removes the dots from a selector string. -/
def cleanSelector (selector : String) : String :=
  ⟨selector.data.filter fun c => !(c == '.')⟩

/-! ### String formatting helpers (`Kargo.helper`) -/

/-- `Kargo.helper.camelToKebabCase` acting on one character:
an upper-case letter becomes a hyphen followed by its lower-case form. -/
def camelToKebabChar (c : Char) : List Char :=
  if c.isUpper then ['-', c.toLower] else [c]

/-- `Kargo.helper.camelToKebabCase`: `string.replace(/([A-Z])/g, '-$1').toLowerCase()`. -/
def camelToKebabCase (s : String) : String :=
  ⟨(s.data.map camelToKebabChar).flatten⟩

/-- `Kargo.helper.objectToString` (`JSON.stringify`) on a flat object of string
fields, given as a key/value list in insertion order. -/
def objectToString (object : List (String × String)) : String :=
  "\x7b" ++ String.intercalate ","
    (object.map fun kv => "\"" ++ kv.1 ++ "\":\"" ++ kv.2 ++ "\"") ++ "\x7d"

/-- `Kargo.helper.formatForStyling`: stringify, kebab-case, then
`replace(/['"{}]+/g, '').split(',').join(';')` — dropping quote and brace
characters and turning each comma into a semicolon. `Char.ofNat 39` is the
single-quote character of the regex character class. -/
def formatForStyling (object : List (String × String)) : String :=
  let strung := objectToString object
  let pierced := camelToKebabCase strung
  ⟨(pierced.data.filter fun c =>
      !(c == Char.ofNat 39 || c == '\"' || c == '\x7b' || c == '\x7d')).map
    fun c => if c == ',' then ';' else c⟩

/-! ### Configuration (`Kargo.config.banners.sticky`) -/

/-- A caller-supplied configuration object as the `StickyBanner` constructor
receives it: a plain object whose enumerable keys are a subset of
`position` and `hide`; an absent key is `none`. -/
structure JsConfig where
  position : Option String
  hide : Option Bool
deriving DecidableEq

/-- `Object.keys` of a `JsConfig` object, in insertion order. -/
def configKeys (c : JsConfig) : List String :=
  (match c.position with | some _ => ["position"] | none => [])
    ++ (match c.hide with | some _ => ["hide"] | none => [])

/-- `Kargo.config.banners.sticky.config`, the default configuration
`{position: 'top', hide: false}`. -/
def defaultStickyConfig : JsConfig :=
  { position := some "top", hide := some false }

/-- The config binding performed by the `StickyBanner` constructor:
`noConfig = Object.keys(config).length === 0 && config.constructor === Object`
(JsConfig models plain objects, so the constructor check holds), and
`this.config = noConfig ? defaultConfig : config`. -/
def stickyBannerConfig (config : JsConfig) : JsConfig :=
  let noConfig := (configKeys config).length == 0
  if noConfig then defaultStickyConfig else config

/-- `Kargo.config.banners.sticky.style`, in source order. -/
def stickyStyleConfig : List (String × String) :=
  [("zIndex", "1"), ("cursor", "pointer"), ("backgroundColor", "#000"),
   ("padding", "0.25em"), ("margin", "0"), ("width", "100%"),
   ("position", "fixed"), ("left", "0")]

/-! ### The registry state -/

/-- A banner position, the two keys of `Kargo.store.banners.rendered`. -/
inductive Pos where
  | top
  | bottom
deriving DecidableEq

/-- The position strings used by the source. -/
def Pos.toStr : Pos → String
  | .top => "top"
  | .bottom => "bottom"

/-- A resolved configuration bound to a rendered banner: `position` one of
`'top'`/`'bottom'`, `hide` a boolean (the truthiness the source tests). -/
structure Config where
  position : Pos
  hide : Bool
deriving DecidableEq

/-- A rendered banner element in the banners container: the attributes set by
`renderBanner` plus the mutable inline `style.display` (unset on creation). -/
structure Elem where
  id : Nat
  html : String
  cls : String
  style : String
  display : Option String
deriving DecidableEq

/-- A filled slot of `Kargo.store.banners.rendered`: the object
`{html: <element>, config: <config>}`; of the stored element reference the code
only ever reads `.id`, so the model stores the id. -/
structure StoredBanner where
  elemId : Nat
  config : Config
deriving DecidableEq

/-- The global `Kargo` mutable state: the two registry slots, the children of
the banners container (in document order) and the fresh-id counter standing in
for `generateId`. -/
structure KargoState where
  top : Option StoredBanner
  bottom : Option StoredBanner
  container : List Elem
  nextId : Nat
deriving DecidableEq

/-- The state after `init()`: both slots are the empty object, the rendered
banners container is empty. -/
def initState : KargoState :=
  { top := none, bottom := none, container := [], nextId := 0 }

/-- `Kargo.store.banners.rendered[position]`. -/
def slotOf (s : KargoState) : Pos → Option StoredBanner
  | .top => s.top
  | .bottom => s.bottom

/-- Assignment `Kargo.store.banners.rendered[position] = v`. -/
def setSlot (s : KargoState) : Pos → Option StoredBanner → KargoState
  | .top, v => { s with top := v }
  | .bottom, v => { s with bottom := v }

/-- `Kargo.helper.isPropertyEmpty(store, position)`:
`Object.keys(store[position]).length === 0`; a slot is either the empty object
or a two-key `{html, config}` object. -/
def isPropertyEmpty (s : KargoState) (position : Pos) : Bool :=
  (slotOf s position).isNone

/-- Represents errors thrown by the host: every throw the widget can produce is
a `TypeError` (reading a property of `undefined`, or `removeChild(null)`). -/
inductive JsError where
  | typeError
deriving DecidableEq

/-! ### DOM primitives on the banners container -/

/-- `document.getElementById` restricted to the banners container: the first
element in document order carrying the id. -/
def getById : List Elem → Nat → Option Elem
  | [], _ => none
  | e :: rest, i => if e.id = i then some e else getById rest i

/-- `container.removeChild(node)` where `node` is the first element with the
given id: drops that occurrence. -/
def removeById : List Elem → Nat → List Elem
  | [], _ => []
  | e :: rest, i => if e.id = i then rest else e :: removeById rest i

/-- `node.style.display = d` on the first element with the given id. -/
def setDisplayById : List Elem → Nat → String → List Elem
  | [], _, _ => []
  | e :: rest, i, d => if e.id = i then { e with display := some d } :: rest
      else e :: setDisplayById rest i d

/-! ### Private banner functions -/

/-- `hasBanner(position)`: false when the slot is the empty object, otherwise
compares the stored config's `position` with the requested one. -/
def hasBanner (s : KargoState) (position : Pos) : Bool :=
  match slotOf s position with
  | none => false
  | some stored => decide (stored.config.position = position)

/-- `storeBanner(html, config)`:
`store[config.position] = {html: html, config: config}`. -/
def storeBanner (s : KargoState) (bannerId : Nat) (config : Config) : KargoState :=
  setSlot s config.position (some { elemId := bannerId, config := config })

/-- `getBannerClass(config)`: base class, position, and the hide class when
`config.hide` is truthy. -/
def getBannerClass (config : Config) : String :=
  let baseCls := "banner-sticky"
  let hideCls := "hide"
  if config.hide then baseCls ++ " " ++ config.position.toStr ++ " " ++ hideCls
  else baseCls ++ " " ++ config.position.toStr

/-- `getBannerStyle(position)`: the formatted style object followed by
`position + ':0;'`. -/
def getBannerStyle (position : Pos) : String :=
  formatForStyling stickyStyleConfig ++ ";" ++ (position.toStr ++ ":0;")

/-- The element built by `renderBanner` before insertion: the `document.createElement`
node with id, class and style attributes set and `innerHTML` assigned. -/
def mkBannerElem (bannerId : Nat) (html : String) (config : Config) : Elem :=
  { id := bannerId, html := html, cls := getBannerClass config,
    style := getBannerStyle config.position, display := none }

/-- `replaceBanner(banner, config)`: looks up `store[config.position].html.id`
(a `TypeError` when the slot is the empty object), fetches that element
(`removeChild(null)` throws when it is gone), removes it from the container and
appends the new banner. -/
def replaceBanner (s : KargoState) (banner : Elem) (config : Config) :
    KargoState × Option JsError :=
  match slotOf s config.position with
  | none => (s, some JsError.typeError)
  | some stored =>
    match getById s.container stored.elemId with
    | none => (s, some JsError.typeError)
    | some _ =>
      ({ s with container := removeById s.container stored.elemId ++ [banner] }, none)

/-- `renderBanner(html, config)`: builds the element, replaces an existing
banner at the same position or appends, then `storeBanner`. The id counter
advances in every case (an id was generated); on a throw inside
`replaceBanner`, `storeBanner` is never reached. -/
def renderBanner (s : KargoState) (html : String) (config : Config) :
    KargoState × Option JsError :=
  let bannerRendered := hasBanner s config.position
  let bannerId := s.nextId
  let banner := mkBannerElem bannerId html config
  match (if bannerRendered then replaceBanner s banner config
         else ({ s with container := s.container ++ [banner] }, none) :
          KargoState × Option JsError) with
  | (s1, some e) => ({ s1 with nextId := s1.nextId + 1 }, some e)
  | (s1, none) => ({ storeBanner s1 bannerId config with nextId := s1.nextId + 1 }, none)

/-- `removeBanner(banner)`, the body of `StickyBanner.prototype.destroy`; the
handle only contributes `banner.config.position`. Reads
`store[position].html.id` (a `TypeError` on an empty slot), looks the element
up, clears the slot (`store[position] = {}` runs before `removeChild`), and
removes the element (`removeChild(null)` throws when the lookup failed). -/
def removeBanner (s : KargoState) (bannerPosition : Pos) : KargoState × Option JsError :=
  match slotOf s bannerPosition with
  | none => (s, some JsError.typeError)
  | some stored =>
    let bannerToRemove := getById s.container stored.elemId
    let s1 := setSlot s bannerPosition none
    match bannerToRemove with
    | none => (s1, some JsError.typeError)
    | some _ => ({ s1 with container := removeById s1.container stored.elemId }, none)

/-- `setBannerDisplay()`, the scroll handler registered by
`attachBannerEvents`. It reads `.config.hide` of both slots up front (a
`TypeError` on the first empty slot, before any display write), then for each
slot whose element is found and whose config hides, assigns
`isBlockerVisible() ? 'none' : 'block'` to the element's display. -/
def setBannerDisplay (s : KargoState) (g : Geometry) : KargoState × Option JsError :=
  match s.top with
  | none => (s, some JsError.typeError)
  | some storedTopBanner =>
    match s.bottom with
    | none => (s, some JsError.typeError)
    | some storedBottomBanner =>
      let hideTopBanner := storedTopBanner.config.hide
      let hideBottomBanner := storedBottomBanner.config.hide
      let topBanner := getById s.container storedTopBanner.elemId
      let bottomBanner := getById s.container storedBottomBanner.elemId
      let c1 := if topBanner.isSome && hideTopBanner then
          setDisplayById s.container storedTopBanner.elemId
            (if isBlockerVisible g then "none" else "block")
        else s.container
      let c2 := if bottomBanner.isSome && hideBottomBanner then
          setDisplayById c1 storedBottomBanner.elemId
            (if isBlockerVisible g then "none" else "block")
        else c1
      ({ s with container := c2 }, none)

/-! ### Public surface as a step relation -/

/-- One caller-visible event: `new Kargo.banner.StickyBanner(html, config)` with
a resolved configuration, `instance.destroy()` through a handle bound to the
given position, or a window scroll firing the registered handler. -/
inductive Op where
  | create (html : String) (config : Config)
  | destroy (position : Pos)
  | scroll (g : Geometry)

/-- Runs one event; an uncaught `TypeError` aborts the handler but leaves the
mutations made before the throw in place. -/
def runOp (s : KargoState) : Op → KargoState × Option JsError
  | .create html config => renderBanner s html config
  | .destroy position => removeBanner s position
  | .scroll g => setBannerDisplay s g

/-- Runs a sequence of events from a state; later events observe the state the
earlier ones left behind, thrown errors included. -/
def runOps (s : KargoState) (ops : List Op) : KargoState :=
  ops.foldl (fun s op => (runOp s op).1) s

/-- The states the global `Kargo` store can actually be in after page
initialization and any sequence of constructor calls, destroys and scrolls. -/
def Reachable (s : KargoState) : Prop :=
  ∃ ops : List Op, runOps initState ops = s

/-- The container transformation performed by a successful `setBannerDisplay`
run (both slots occupied), with the `let`-bound locals of the source inlined:
both element lookups read the container as it was when the handler started. -/
def displayStep (l : List Elem) (a b : StoredBanner) (g : Geometry) : List Elem :=
  if (getById l b.elemId).isSome && b.config.hide then
    setDisplayById
      (if (getById l a.elemId).isSome && a.config.hide then
        setDisplayById l a.elemId (if isBlockerVisible g then "none" else "block")
      else l)
      b.elemId (if isBlockerVisible g then "none" else "block")
  else
    if (getById l a.elemId).isSome && a.config.hide then
      setDisplayById l a.elemId (if isBlockerVisible g then "none" else "block")
    else l

/-- Consistency of the registry with the rendered container, true in every
reachable state: container ids are distinct and below the id counter, each
filled slot's element is rendered, every rendered element belongs to a filled
slot, the two slots reference different elements, and a stored config carries
its slot's position. -/
structure WF (s : KargoState) : Prop where
  nodup : (s.container.map Elem.id).Nodup
  slotMem : ∀ pos a, slotOf s pos = some a → a.elemId ∈ s.container.map Elem.id
  elemSlot : ∀ i ∈ s.container.map Elem.id,
    ∃ pos a, slotOf s pos = some a ∧ i = a.elemId
  fresh : ∀ i ∈ s.container.map Elem.id, i < s.nextId
  distinct : ∀ p q a b, p ≠ q → slotOf s p = some a → slotOf s q = some b →
    a.elemId ≠ b.elemId
  slotKey : ∀ pos a, slotOf s pos = some a → a.config.position = pos

/-! ### Concrete scenarios -/

/-- The store after a single `new StickyBanner('ad', {position:'top', hide:true})`
on a fresh page: only the top slot is occupied. -/
def singleTopState : KargoState :=
  runOps initState [Op.create "ad" { position := Pos.top, hide := true }]

/-- A top banner and a bottom banner, both configured to hide. -/
def bothState : KargoState :=
  runOps initState
    [Op.create "a" { position := Pos.top, hide := true },
     Op.create "b" { position := Pos.bottom, hide := true }]

/-- Banner "a" created at top, then evicted by creating banner "b" at top. -/
def replacedTopState : KargoState :=
  runOps initState
    [Op.create "a" { position := Pos.top, hide := false },
     Op.create "b" { position := Pos.top, hide := false }]

/-- A geometry whose single blocker rectangle intersects the vertical viewport
span (`bottom = 200 ≥ 0`, `top = 100 < 600`). -/
def visibleBlockerGeom : Geometry :=
  { clientHeight := 600, innerHeight := 600, blockers := [{ top := 100, bottom := 200 }] }

/-- The same viewport with the blocker scrolled below the fold
(`top = 700 ≥ 600`). -/
def hiddenBlockerGeom : Geometry :=
  { clientHeight := 600, innerHeight := 600, blockers := [{ top := 700, bottom := 800 }] }

/-! ### Lemmas about the DOM primitives -/

theorem getById_eq_none {l : List Elem} {i : Nat} :
    getById l i = none ↔ ∀ e ∈ l, e.id ≠ i := by
  induction l with
  | nil => simp [getById]
  | cons e rest ih =>
    by_cases h : e.id = i
    · simp [getById, h]
    · simp [getById, h, ih]

theorem getById_mem {l : List Elem} {i : Nat} {e : Elem} (h : getById l i = some e) :
    e ∈ l ∧ e.id = i := by
  induction l with
  | nil => simp [getById] at h
  | cons e' rest ih =>
    by_cases h' : e'.id = i
    · simp only [getById, if_pos h'] at h
      cases h
      exact ⟨List.mem_cons_self _ _, h'⟩
    · simp only [getById, if_neg h'] at h
      exact ⟨List.mem_cons_of_mem _ (ih h).1, (ih h).2⟩

theorem getById_isSome_of_mem {l : List Elem} {i : Nat} {e : Elem}
    (he : e ∈ l) (hi : e.id = i) : (getById l i).isSome := by
  induction l with
  | nil => simp at he
  | cons e' rest ih =>
    by_cases h' : e'.id = i
    · simp [getById, h']
    · rcases List.mem_cons.mp he with rfl | hmem
      · exact absurd hi h'
      · simpa [getById, h'] using ih hmem

theorem getById_append_left {l l' : List Elem} {i : Nat} {e : Elem}
    (h : getById l i = some e) : getById (l ++ l') i = some e := by
  induction l with
  | nil => simp [getById] at h
  | cons e' rest ih =>
    by_cases h' : e'.id = i
    · simp only [getById, if_pos h'] at h ⊢
      exact h
    · simp only [getById, if_neg h'] at h ⊢
      exact ih h

theorem removeById_sublist (l : List Elem) (i : Nat) : List.Sublist (removeById l i) l := by
  induction l with
  | nil => simp [removeById]
  | cons e rest ih =>
    by_cases h : e.id = i
    · simp only [removeById, if_pos h]
      exact List.sublist_cons_self e rest
    · simp only [removeById, if_neg h]
      exact List.Sublist.cons₂ e ih

theorem mem_removeById_of_ne {l : List Elem} {i : Nat} {e : Elem}
    (he : e ∈ l) (hne : e.id ≠ i) : e ∈ removeById l i := by
  induction l with
  | nil => simp at he
  | cons e' rest ih =>
    by_cases h' : e'.id = i
    · rcases List.mem_cons.mp he with rfl | hmem
      · exact absurd h' hne
      · simpa [removeById, h'] using hmem
    · rcases List.mem_cons.mp he with rfl | hmem
      · simp [removeById, h']
      · simp [removeById, h', ih hmem]

theorem not_mem_removeById {l : List Elem} {i : Nat}
    (hn : (l.map Elem.id).Nodup) : ∀ e ∈ removeById l i, e.id ≠ i := by
  induction l with
  | nil => simp [removeById]
  | cons e' rest ih =>
    simp only [List.map_cons, List.nodup_cons] at hn
    by_cases h' : e'.id = i
    · intro e he
      simp only [removeById, if_pos h'] at he
      intro hei
      exact hn.1 (h' ▸ hei ▸ List.mem_map_of_mem Elem.id he)
    · intro e he
      simp only [removeById, if_neg h'] at he
      rcases List.mem_cons.mp he with rfl | hmem
      · exact h'
      · exact ih hn.2 e hmem

theorem getById_removeById_ne {l : List Elem} {i j : Nat} (h : j ≠ i) :
    getById (removeById l i) j = getById l j := by
  induction l with
  | nil => simp [removeById]
  | cons e rest ih =>
    by_cases hi : e.id = i
    · simp [removeById, getById, hi, Ne.symm h]
    · by_cases hj : e.id = j
      · simp [removeById, getById, hi, hj, h]
      · simp [removeById, getById, hi, hj, ih]

theorem setDisplayById_map_id (l : List Elem) (i : Nat) (d : String) :
    (setDisplayById l i d).map Elem.id = l.map Elem.id := by
  induction l with
  | nil => simp [setDisplayById]
  | cons e rest ih =>
    by_cases h : e.id = i
    · simp [setDisplayById, h]
    · simp [setDisplayById, h, ih]

theorem getById_setDisplayById_ne {l : List Elem} {i j : Nat} {d : String} (h : j ≠ i) :
    getById (setDisplayById l i d) j = getById l j := by
  induction l with
  | nil => simp [setDisplayById]
  | cons e rest ih =>
    by_cases hi : e.id = i
    · simp [setDisplayById, getById, hi, Ne.symm h]
    · by_cases hj : e.id = j
      · simp [setDisplayById, getById, hi, hj, h]
      · simp [setDisplayById, getById, hi, hj, ih]

theorem getById_setDisplayById_self {l : List Elem} {i : Nat} {d : String} {e : Elem}
    (h : getById l i = some e) :
    getById (setDisplayById l i d) i = some { e with display := some d } := by
  induction l with
  | nil => simp [getById] at h
  | cons e' rest ih =>
    by_cases h' : e'.id = i
    · simp only [getById, if_pos h'] at h
      cases h
      simp [setDisplayById, getById, h']
    · simp only [getById, if_neg h'] at h
      simp [setDisplayById, getById, h', ih h]

theorem setDisplayById_setDisplayById_same (l : List Elem) (i : Nat) (d : String) :
    setDisplayById (setDisplayById l i d) i d = setDisplayById l i d := by
  induction l with
  | nil => simp [setDisplayById]
  | cons e rest ih =>
    by_cases h : e.id = i
    · simp [setDisplayById, h]
    · simp [setDisplayById, h, ih]

/-! ### State projection lemmas -/

@[simp] theorem setSlot_container (s : KargoState) (pos : Pos) (v : Option StoredBanner) :
    (setSlot s pos v).container = s.container := by
  cases pos <;> rfl

@[simp] theorem setSlot_nextId (s : KargoState) (pos : Pos) (v : Option StoredBanner) :
    (setSlot s pos v).nextId = s.nextId := by
  cases pos <;> rfl

@[simp] theorem slotOf_setSlot_same (s : KargoState) (pos : Pos) (v : Option StoredBanner) :
    slotOf (setSlot s pos v) pos = v := by
  cases pos <;> rfl

theorem slotOf_setSlot_ne {p q : Pos} (h : q ≠ p) (s : KargoState) (v : Option StoredBanner) :
    slotOf (setSlot s p v) q = slotOf s q := by
  cases p <;> cases q
  · exact absurd rfl h
  · rfl
  · rfl
  · exact absurd rfl h

theorem slotOf_setContainer (s : KargoState) (c : List Elem) (pos : Pos) :
    slotOf { s with container := c } pos = slotOf s pos := by
  cases pos <;> rfl

theorem slotOf_setNextId (s : KargoState) (n : Nat) (pos : Pos) :
    slotOf { s with nextId := n } pos = slotOf s pos := by
  cases pos <;> rfl

theorem slotOf_install (s : KargoState) (c : List Elem) (p : Pos) (v : Option StoredBanner)
    (m : Nat) (q : Pos) :
    slotOf { setSlot { s with container := c } p v with nextId := m } q
      = if q = p then v else slotOf s q := by
  by_cases h : q = p
  · subst h
    rw [slotOf_setNextId, slotOf_setSlot_same, if_pos rfl]
  · rw [slotOf_setNextId, slotOf_setSlot_ne h, slotOf_setContainer, if_neg h]

theorem container_install (s : KargoState) (c : List Elem) (p : Pos) (v : Option StoredBanner)
    (m : Nat) :
    ({ setSlot { s with container := c } p v with nextId := m }).container = c := by
  simp

theorem slotOf_clear (s : KargoState) (p : Pos) (c : List Elem) (q : Pos) :
    slotOf { setSlot s p none with container := c } q
      = if q = p then none else slotOf s q := by
  by_cases h : q = p
  · subst h
    rw [slotOf_setContainer, slotOf_setSlot_same, if_pos rfl]
  · rw [slotOf_setContainer, slotOf_setSlot_ne h, if_neg h]

theorem setDisplayById_absorb (l : List Elem) (i j : Nat) (d : String) :
    setDisplayById (setDisplayById (setDisplayById l i d) j d) i d
      = setDisplayById (setDisplayById l i d) j d := by
  by_cases hij : i = j
  · subst hij
    simp [setDisplayById_setDisplayById_same]
  · induction l with
    | nil => simp [setDisplayById]
    | cons e rest ih =>
      by_cases hi : e.id = i
      · have hj : e.id ≠ j := fun hj => hij (hi.symm.trans hj)
        simp [setDisplayById, hi, hj, hij]
      · by_cases hj : e.id = j
        · simp [setDisplayById, hi, hj, Ne.symm hij, setDisplayById_setDisplayById_same]
        · simp [setDisplayById, hi, hj, ih]

/-! ### Registry/DOM consistency invariant -/

theorem wf_initState : WF initState := by
  refine ⟨?_, ?_, ?_, ?_, ?_, ?_⟩
  · simp [initState]
  · intro pos a h
    cases pos <;> simp [initState, slotOf] at h
  · intro i hi
    simp [initState] at hi
  · intro i hi
    simp [initState] at hi
  · intro p q a b hpq hp hq
    cases p <;> simp [initState, slotOf] at hp
  · intro pos a h
    cases pos <;> simp [initState, slotOf] at h

/-- In a consistent state `hasBanner` is exactly slot occupancy: the stored
config's position always agrees with its slot. -/
theorem hasBanner_eq_isSome {s : KargoState} (hw : WF s) (pos : Pos) :
    hasBanner s pos = (slotOf s pos).isSome := by
  cases hslot : slotOf s pos with
  | none => simp [hasBanner, hslot]
  | some a => simp [hasBanner, hslot, hw.slotKey pos a hslot]

/-! ### Unfolding the operation paths -/

/-- `renderBanner` on an unoccupied position: plain `appendChild` then
`storeBanner`. -/
theorem renderBanner_insert {s : KargoState} {config : Config}
    (h : slotOf s config.position = none) (html : String) :
    renderBanner s html config =
      ({ storeBanner { s with container := s.container ++ [mkBannerElem s.nextId html config] }
            s.nextId config with nextId := s.nextId + 1 }, none) := by
  have hb : hasBanner s config.position = false := by simp [hasBanner, h]
  simp [renderBanner, hb]

/-- `renderBanner` on an occupied position in a consistent state: the stored
element is removed, the new banner appended, then `storeBanner`. -/
theorem renderBanner_replace {s : KargoState} {config : Config} {old : StoredBanner}
    (hw : WF s) (hslot : slotOf s config.position = some old) (html : String) :
    renderBanner s html config =
      ({ storeBanner
            { s with container := removeById s.container old.elemId
                ++ [mkBannerElem s.nextId html config] }
            s.nextId config with nextId := s.nextId + 1 }, none) := by
  have hb : hasBanner s config.position = true := by
    simp [hasBanner, hslot, hw.slotKey _ _ hslot]
  obtain ⟨e, he, hei⟩ : ∃ e ∈ s.container, e.id = old.elemId := by
    simpa using hw.slotMem _ _ hslot
  obtain ⟨e', hge⟩ : ∃ e', getById s.container old.elemId = some e' :=
    Option.isSome_iff_exists.mp (getById_isSome_of_mem he hei)
  simp [renderBanner, hb, replaceBanner, hslot, hge]

/-- `removeBanner` on an occupied position in a consistent state: the slot is
cleared and the stored element removed. -/
theorem removeBanner_occupied {s : KargoState} {pos : Pos} {stored : StoredBanner}
    (hw : WF s) (hslot : slotOf s pos = some stored) :
    removeBanner s pos =
      ({ setSlot s pos none with container := removeById s.container stored.elemId }, none) := by
  obtain ⟨e, he, hei⟩ : ∃ e ∈ s.container, e.id = stored.elemId := by
    simpa using hw.slotMem _ _ hslot
  obtain ⟨e', hge⟩ : ∃ e', getById s.container stored.elemId = some e' :=
    Option.isSome_iff_exists.mp (getById_isSome_of_mem he hei)
  simp [removeBanner, hslot, hge]

/-! ### Preservation of the invariant -/

/-- Installing a freshly built banner at `config.position` over a surviving
portion `l'` of the container preserves consistency. -/
theorem wf_install {s : KargoState} (hw : WF s) (html : String) {l' : List Elem} {cfg : Config}
    (hsub : List.Sublist (l'.map Elem.id) (s.container.map Elem.id))
    (havoid : ∀ i ∈ l'.map Elem.id,
      ∃ q b, q ≠ cfg.position ∧ slotOf s q = some b ∧ i = b.elemId)
    (hkeep : ∀ q b, q ≠ cfg.position → slotOf s q = some b → b.elemId ∈ l'.map Elem.id) :
    WF { setSlot { s with container := l' ++ [mkBannerElem s.nextId html cfg] }
          cfg.position (some { elemId := s.nextId, config := cfg })
          with nextId := s.nextId + 1 } := by
  have hlt : ∀ i ∈ l'.map Elem.id, i < s.nextId :=
    fun i hi => hw.fresh i (hsub.subset hi)
  have hnotmem : s.nextId ∉ l'.map Elem.id :=
    fun hmem => absurd (hlt _ hmem) (lt_irrefl _)
  refine ⟨?_, ?_, ?_, ?_, ?_, ?_⟩
  · rw [container_install]
    simp only [List.map_append, List.map_cons, List.map_nil, mkBannerElem]
    rw [List.nodup_append]
    exact ⟨hw.nodup.sublist hsub, List.nodup_singleton _,
      fun i hi hmem => by simp at hmem; exact hnotmem (hmem ▸ hi)⟩
  · intro pos a hpos
    rw [slotOf_install] at hpos
    rw [container_install]
    by_cases hp : pos = cfg.position
    · rw [if_pos hp] at hpos
      cases hpos
      simp [mkBannerElem]
    · rw [if_neg hp] at hpos
      have := hkeep pos a hp hpos
      simp only [List.map_append, List.map_cons, List.map_nil, List.mem_append]
      exact Or.inl this
  · intro i hi
    rw [container_install] at hi
    simp only [List.map_append, List.map_cons, List.map_nil, List.mem_append,
      List.mem_singleton, mkBannerElem] at hi
    rcases hi with hi | hi
    · obtain ⟨q, b, hq, hb, rfl⟩ := havoid i hi
      refine ⟨q, b, ?_, rfl⟩
      rw [slotOf_install, if_neg hq]
      exact hb
    · subst hi
      refine ⟨cfg.position, { elemId := s.nextId, config := cfg }, ?_, rfl⟩
      rw [slotOf_install, if_pos rfl]
  · intro i hi
    rw [container_install] at hi
    simp only [List.map_append, List.map_cons, List.map_nil, List.mem_append,
      List.mem_singleton, mkBannerElem] at hi
    rcases hi with hi | hi
    · exact lt_trans (hlt i hi) (Nat.lt_succ_self _)
    · subst hi
      exact Nat.lt_succ_self _
  · intro p q a b hpq hp hq
    rw [slotOf_install] at hp hq
    by_cases hpc : p = cfg.position
    · rw [if_pos hpc] at hp
      cases hp
      have hqc : q ≠ cfg.position := fun h => hpq (hpc.trans h.symm)
      rw [if_neg hqc] at hq
      have := hlt _ (hkeep q b hqc hq)
      simp only [ne_eq]
      intro hcontr
      rw [← hcontr] at this
      exact absurd this (lt_irrefl _)
    · rw [if_neg hpc] at hp
      by_cases hqc : q = cfg.position
      · rw [if_pos hqc] at hq
        cases hq
        have := hlt _ (hkeep p a hpc hp)
        simp only [ne_eq]
        intro hcontr
        rw [hcontr] at this
        exact absurd this (lt_irrefl _)
      · rw [if_neg hqc] at hq
        exact hw.distinct p q a b hpq hp hq
  · intro pos a hpos
    rw [slotOf_install] at hpos
    by_cases hp : pos = cfg.position
    · rw [if_pos hp] at hpos
      cases hpos
      exact hp.symm
    · rw [if_neg hp] at hpos
      exact hw.slotKey pos a hpos

/-- Clearing an occupied slot and removing its element preserves consistency. -/
theorem wf_clear {s : KargoState} {pos : Pos} {stored : StoredBanner}
    (hw : WF s) (hslot : slotOf s pos = some stored) :
    WF { setSlot s pos none with container := removeById s.container stored.elemId } := by
  have hids : List.Sublist ((removeById s.container stored.elemId).map Elem.id)
      (s.container.map Elem.id) := (removeById_sublist _ _).map Elem.id
  refine ⟨?_, ?_, ?_, ?_, ?_, ?_⟩
  · exact hw.nodup.sublist hids
  · intro q b hq
    rw [slotOf_clear] at hq
    by_cases hqp : q = pos
    · rw [if_pos hqp] at hq
      cases hq
    · rw [if_neg hqp] at hq
      have hne : b.elemId ≠ stored.elemId :=
        hw.distinct q pos b stored hqp hq hslot
      obtain ⟨e, he, hei⟩ : ∃ e ∈ s.container, e.id = b.elemId := by
        simpa using hw.slotMem _ _ hq
      have : e ∈ removeById s.container stored.elemId :=
        mem_removeById_of_ne he (hei ▸ hne)
      exact hei ▸ List.mem_map_of_mem Elem.id this
  · intro i hi
    obtain ⟨e, he, rfl⟩ := List.mem_map.mp hi
    have hel : e ∈ s.container := (removeById_sublist _ _).subset he
    have hne : e.id ≠ stored.elemId := not_mem_removeById hw.nodup e he
    obtain ⟨q, b, hq, hqi⟩ := hw.elemSlot e.id (List.mem_map_of_mem Elem.id hel)
    have hqp : q ≠ pos := by
      intro hcontr
      rw [hcontr, hslot] at hq
      cases hq
      exact hne hqi
    refine ⟨q, b, ?_, hqi⟩
    rw [slotOf_clear, if_neg hqp]
    exact hq
  · intro i hi
    have : i ∈ s.container.map Elem.id := hids.subset hi
    have hlt := hw.fresh i this
    simpa using hlt
  · intro p q a b hpq hp hq
    rw [slotOf_clear] at hp hq
    by_cases hpp : p = pos
    · rw [if_pos hpp] at hp
      cases hp
    · by_cases hqp : q = pos
      · rw [if_pos hqp] at hq
        cases hq
      · rw [if_neg hpp] at hp
        rw [if_neg hqp] at hq
        exact hw.distinct p q a b hpq hp hq
  · intro q b hq
    rw [slotOf_clear] at hq
    by_cases hqp : q = pos
    · rw [if_pos hqp] at hq
      cases hq
    · rw [if_neg hqp] at hq
      exact hw.slotKey q b hq

/-- Replacing the container by one with the same ids (display updates)
preserves consistency. -/
theorem wf_sameIds {s : KargoState} {c : List Elem} (hw : WF s)
    (hids : c.map Elem.id = s.container.map Elem.id) :
    WF { s with container := c } := by
  refine ⟨?_, ?_, ?_, ?_, ?_, ?_⟩
  · simpa [hids] using hw.nodup
  · intro pos a hpos
    rw [slotOf_setContainer] at hpos
    simpa [hids] using hw.slotMem pos a hpos
  · intro i hi
    simp only [hids] at hi
    obtain ⟨q, b, hq, hqi⟩ := hw.elemSlot i hi
    exact ⟨q, b, by rw [slotOf_setContainer]; exact hq, hqi⟩
  · intro i hi
    simp only [hids] at hi
    simpa using hw.fresh i hi
  · intro p q a b hpq hp hq
    rw [slotOf_setContainer] at hp hq
    exact hw.distinct p q a b hpq hp hq
  · intro pos a hpos
    rw [slotOf_setContainer] at hpos
    exact hw.slotKey pos a hpos

theorem wf_renderBanner {s : KargoState} (hw : WF s) (html : String) (config : Config) :
    WF (renderBanner s html config).1 := by
  cases hslot : slotOf s config.position with
  | none =>
    rw [renderBanner_insert hslot html]
    simp only [storeBanner]
    exact wf_install hw html (List.Sublist.refl _)
      (fun i hi => by
        obtain ⟨q, b, hq, hqi⟩ := hw.elemSlot i hi
        refine ⟨q, b, ?_, hq, hqi⟩
        intro hcontr
        rw [hcontr, hslot] at hq
        cases hq)
      (fun q b _ hq => hw.slotMem q b hq)
  | some old =>
    rw [renderBanner_replace hw hslot html]
    simp only [storeBanner]
    refine wf_install hw html ((removeById_sublist _ _).map Elem.id) ?_ ?_
    · intro i hi
      obtain ⟨e, he, rfl⟩ := List.mem_map.mp hi
      have hel : e ∈ s.container := (removeById_sublist _ _).subset he
      have hne : e.id ≠ old.elemId := not_mem_removeById hw.nodup e he
      obtain ⟨q, b, hq, hqi⟩ := hw.elemSlot e.id (List.mem_map_of_mem Elem.id hel)
      have hqp : q ≠ config.position := by
        intro hcontr
        rw [hcontr, hslot] at hq
        cases hq
        exact hne hqi
      exact ⟨q, b, hqp, hq, hqi⟩
    · intro q b hqp hq
      have hne : b.elemId ≠ old.elemId :=
        hw.distinct q config.position b old hqp hq hslot
      obtain ⟨e, he, hei⟩ : ∃ e ∈ s.container, e.id = b.elemId := by
        simpa using hw.slotMem _ _ hq
      have : e ∈ removeById s.container old.elemId :=
        mem_removeById_of_ne he (hei ▸ hne)
      exact hei ▸ List.mem_map_of_mem Elem.id this

theorem wf_removeBanner {s : KargoState} (hw : WF s) (pos : Pos) :
    WF (removeBanner s pos).1 := by
  cases hslot : slotOf s pos with
  | none =>
    simp only [removeBanner, hslot]
    exact hw
  | some stored =>
    rw [removeBanner_occupied hw hslot]
    exact wf_clear hw hslot

theorem wf_setBannerDisplay {s : KargoState} (hw : WF s) (g : Geometry) :
    WF (setBannerDisplay s g).1 := by
  cases ht : s.top with
  | none =>
    simp only [setBannerDisplay, ht]
    exact hw
  | some a =>
    cases hb : s.bottom with
    | none =>
      simp only [setBannerDisplay, ht, hb]
      exact hw
    | some b =>
      simp only [setBannerDisplay, ht, hb]
      rw [← ht, ← hb]
      apply wf_sameIds hw
      split <;> split <;> simp [setDisplayById_map_id]

theorem wf_runOp (s : KargoState) (op : Op) (hw : WF s) : WF (runOp s op).1 := by
  cases op with
  | create html config => exact wf_renderBanner hw html config
  | destroy pos => exact wf_removeBanner hw pos
  | scroll g => exact wf_setBannerDisplay hw g

theorem wf_runOps (ops : List Op) : ∀ s : KargoState, WF s → WF (runOps s ops) := by
  induction ops with
  | nil =>
    intro s hw
    simpa [runOps] using hw
  | cons op ops ih =>
    intro s hw
    rw [runOps, List.foldl_cons]
    exact ih _ (wf_runOp s op hw)

/-- Every reachable state of the widget satisfies the consistency invariant. -/
theorem wf_reachable {s : KargoState} (h : Reachable s) : WF s := by
  obtain ⟨ops, rfl⟩ := h
  exact wf_runOps ops initState wf_initState

/-! ### The visibility computation -/

theorem foldl_visible_eq (vh : Int) (l : List Rect) (b : Bool) :
    l.foldl (fun value blocker => if isElementVisible vh blocker then true else value) b
      = (b || l.any (isElementVisible vh)) := by
  induction l generalizing b with
  | nil => simp
  | cons r l ih =>
    simp only [List.foldl_cons, List.any_cons]
    rw [ih]
    cases isElementVisible vh r <;> cases b <;> simp

theorem isElementVisible_iff (vh : Int) (r : Rect) :
    isElementVisible vh r = true ↔ r.bottom ≥ 0 ∧ r.top < vh := by
  simp only [isElementVisible, Bool.not_eq_eq_eq_not, Bool.not_true, Bool.or_eq_false_iff,
    decide_eq_false_iff_not, not_lt, not_le, ge_iff_le]
  omega

theorem isBlockerVisible_eq_any (g : Geometry) :
    isBlockerVisible g = g.blockers.any (isElementVisible (viewportHeight g)) := by
  rw [isBlockerVisible, foldl_visible_eq, Bool.false_or]

/-! ### Unfolding a successful scroll handler run -/

theorem setBannerDisplay_eq_displayStep (s : KargoState) {a b : StoredBanner}
    (ht : s.top = some a) (hb : s.bottom = some b) (g : Geometry) :
    setBannerDisplay s g = ({ s with container := displayStep s.container a b g }, none) := by
  simp only [setBannerDisplay, ht, hb, displayStep]

theorem getById_none_iff (l : List Elem) (i : Nat) :
    getById l i = none ↔ i ∉ l.map Elem.id := by
  rw [getById_eq_none]
  simp

theorem getById_isSome_congr {l l' : List Elem} (h : l'.map Elem.id = l.map Elem.id)
    (i : Nat) : (getById l' i).isSome = (getById l i).isSome := by
  cases hl : getById l i with
  | none =>
    have h' : getById l' i = none := by
      rw [getById_none_iff, h, ← getById_none_iff]
      exact hl
    simp [h']
  | some e =>
    cases hl' : getById l' i with
    | none =>
      rw [getById_none_iff, h, ← getById_none_iff] at hl'
      rw [hl'] at hl
      cases hl
    | some e' => simp

theorem displayStep_map_id (l : List Elem) (a b : StoredBanner) (g : Geometry) :
    (displayStep l a b g).map Elem.id = l.map Elem.id := by
  rw [displayStep]
  split <;> split <;> simp [setDisplayById_map_id]

theorem setDisplayById_noop {l : List Elem} {i : Nat} (d : String)
    (h : getById l i = none) : setDisplayById l i d = l := by
  induction l with
  | nil => rfl
  | cons e rest ih =>
    by_cases h' : e.id = i
    · simp [getById, h'] at h
    · simp only [getById, if_neg h'] at h
      simp [setDisplayById, h', ih h]

/-- The `isSome` guards of `displayStep` are redundant: setting the display of
an absent element changes nothing. -/
theorem displayStep_eq (l : List Elem) (a b : StoredBanner) (g : Geometry) :
    displayStep l a b g
      = (if b.config.hide then
          setDisplayById
            (if a.config.hide then
              setDisplayById l a.elemId (if isBlockerVisible g then "none" else "block")
            else l)
            b.elemId (if isBlockerVisible g then "none" else "block")
        else
          if a.config.hide then
            setDisplayById l a.elemId (if isBlockerVisible g then "none" else "block")
          else l) := by
  rw [displayStep]
  cases hga : getById l a.elemId with
  | none =>
    have h1 : (if a.config.hide then
        setDisplayById l a.elemId (if isBlockerVisible g then "none" else "block")
      else l) = l := by
      split
      · exact setDisplayById_noop _ hga
      · rfl
    cases hgb : getById l b.elemId with
    | none =>
      have h2 : ∀ c : List Elem, c.map Elem.id = l.map Elem.id →
          setDisplayById c b.elemId (if isBlockerVisible g then "none" else "block") = c := by
        intro c hc
        refine setDisplayById_noop _ ?_
        rw [getById_none_iff, hc, ← getById_none_iff]
        exact hgb
      simp [hga, hgb, h1, h2 l rfl]
    | some eb => simp [hga, hgb, h1]
  | some ea =>
    cases hgb : getById l b.elemId with
    | none =>
      have h2 : ∀ c : List Elem, c.map Elem.id = l.map Elem.id →
          setDisplayById c b.elemId (if isBlockerVisible g then "none" else "block") = c := by
        intro c hc
        refine setDisplayById_noop _ ?_
        rw [getById_none_iff, hc, ← getById_none_iff]
        exact hgb
      by_cases hah : a.config.hide
      · simp [hga, hgb, hah, h2 _ (setDisplayById_map_id l a.elemId _)]
      · simp [hga, hgb, hah, h2 l rfl]
    | some eb => simp [hga, hgb]

theorem displayStep_idem (l : List Elem) (a b : StoredBanner) (g : Geometry) :
    displayStep (displayStep l a b g) a b g = displayStep l a b g := by
  rw [displayStep_eq l a b g, displayStep_eq]
  by_cases hah : a.config.hide <;> by_cases hbh : b.config.hide <;>
    simp [hah, hbh, setDisplayById_setDisplayById_same, setDisplayById_absorb]

/-! ### Effect of a handler run on individual banners -/

theorem getById_displayStep_hide_false_top {l : List Elem} {a b : StoredBanner} {g : Geometry}
    (hne : a.elemId ≠ b.elemId) (hhide : a.config.hide = false) :
    getById (displayStep l a b g) a.elemId = getById l a.elemId := by
  have hfa : ¬ a.config.hide = true := by simp [hhide]
  by_cases hbh : b.config.hide = true
  · rw [displayStep_eq, if_pos hbh, if_neg hfa, getById_setDisplayById_ne hne]
  · rw [displayStep_eq, if_neg hbh, if_neg hfa]

theorem getById_displayStep_hide_false_bot {l : List Elem} {a b : StoredBanner} {g : Geometry}
    (hne : b.elemId ≠ a.elemId) (hhide : b.config.hide = false) :
    getById (displayStep l a b g) b.elemId = getById l b.elemId := by
  have hfb : ¬ b.config.hide = true := by simp [hhide]
  rw [displayStep_eq, if_neg hfb]
  by_cases hah : a.config.hide = true
  · rw [if_pos hah]
    exact getById_setDisplayById_ne hne
  · rw [if_neg hah]

theorem getById_displayStep_hide_true_top {l : List Elem} {a b : StoredBanner} {g : Geometry}
    {e : Elem} (hne : a.elemId ≠ b.elemId) (hhide : a.config.hide = true)
    (hga : getById l a.elemId = some e) :
    getById (displayStep l a b g) a.elemId
      = some { e with display := some (if isBlockerVisible g then "none" else "block") } := by
  by_cases hbh : b.config.hide = true
  · rw [displayStep_eq, if_pos hbh, if_pos hhide, getById_setDisplayById_ne hne]
    exact getById_setDisplayById_self hga
  · rw [displayStep_eq, if_neg hbh, if_pos hhide]
    exact getById_setDisplayById_self hga

theorem getById_displayStep_hide_true_bot {l : List Elem} {a b : StoredBanner} {g : Geometry}
    {e : Elem} (hne : b.elemId ≠ a.elemId) (hhide : b.config.hide = true)
    (hgb : getById l b.elemId = some e) :
    getById (displayStep l a b g) b.elemId
      = some { e with display := some (if isBlockerVisible g then "none" else "block") } := by
  rw [displayStep_eq, if_pos hhide]
  refine getById_setDisplayById_self ?_
  by_cases hah : a.config.hide = true
  · rw [if_pos hah, getById_setDisplayById_ne hne]
    exact hgb
  · rw [if_neg hah]
    exact hgb

/-! ### Claim C3 -/

/-- C3: the blocker-visibility check returns `true` iff some element matching
the blocker selector has a bounding rectangle with `rect.bottom >= 0` and
`rect.top < viewportHeight` (a logical OR over all matches), and it returns
`false` when no element matches the selector. -/
theorem isBlockerVisible_spec (g : Geometry) :
    (isBlockerVisible g = true ↔
      ∃ r ∈ g.blockers, r.bottom ≥ 0 ∧ r.top < viewportHeight g)
    ∧ (g.blockers = [] → isBlockerVisible g = false) := by
  refine ⟨?_, ?_⟩
  · rw [isBlockerVisible_eq_any, List.any_eq_true]
    constructor
    · rintro ⟨r, hr, hv⟩
      exact ⟨r, hr, (isElementVisible_iff _ r).mp hv⟩
    · rintro ⟨r, hr, hv⟩
      exact ⟨r, hr, (isElementVisible_iff _ r).mpr hv⟩
  · intro h
    rw [isBlockerVisible_eq_any, h]
    rfl

theorem isBlockerVisible_spec_witness :
    isBlockerVisible { clientHeight := 600, innerHeight := 600, blockers := [] } = false :=
  (isBlockerVisible_spec { clientHeight := 600, innerHeight := 600, blockers := [] }).2 rfl

/-! ### Claim C5 -/

/-- C5: configuration resolution is whole-object substitution — an empty
configuration object becomes exactly the full default
`{position: 'top', hide: false}`, while any configuration with at least one
enumerable key is bound as-is (so a partial config keeps its missing fields
undefined). -/
theorem config_resolution_spec :
    (stickyBannerConfig { position := none, hide := none } = defaultStickyConfig
      ∧ defaultStickyConfig = { position := some "top", hide := some false })
    ∧ (∀ c : JsConfig, configKeys c ≠ [] → stickyBannerConfig c = c) := by
  refine ⟨⟨rfl, rfl⟩, ?_⟩
  intro c hc
  rcases c with ⟨p, h⟩
  cases p <;> cases h
  · exact absurd rfl hc
  · rfl
  · rfl
  · rfl

theorem config_resolution_spec_witness :
    stickyBannerConfig { position := none, hide := some true }
      = { position := none, hide := some true } :=
  config_resolution_spec.2 { position := none, hide := some true } (by decide)

/-! ### Claim C4 -/

/-- C4: `setBannerDisplay` reads `.config.hide` of both registry slots
unconditionally, so a scroll completes without a host exception only when both
positions hold a registered banner; if either slot is the empty object it
throws a `TypeError` before any display state is updated (the state is
returned unchanged). -/
theorem setBannerDisplay_requires_both_slots (s : KargoState) (g : Geometry) :
    ((setBannerDisplay s g).2 = none → s.top.isSome ∧ s.bottom.isSome)
    ∧ ((s.top = none ∨ s.bottom = none) →
        (setBannerDisplay s g).2 = some JsError.typeError
          ∧ (setBannerDisplay s g).1 = s) := by
  cases ht : s.top with
  | none => simp [setBannerDisplay, ht]
  | some a =>
    cases hb : s.bottom with
    | none => simp [setBannerDisplay, ht, hb]
    | some b => simp [setBannerDisplay, ht, hb]

theorem setBannerDisplay_requires_both_slots_witness :
    (setBannerDisplay singleTopState visibleBlockerGeom).2 = some JsError.typeError
      ∧ (setBannerDisplay singleTopState visibleBlockerGeom).1 = singleTopState :=
  (setBannerDisplay_requires_both_slots singleTopState visibleBlockerGeom).2 (Or.inr rfl)

/-! ### Claim C10 -/

/-- C10: the scroll-driven visibility recomputation is idempotent — running
`setBannerDisplay` twice in succession with unchanged blocker geometry and
unchanged registry leaves exactly the display state of the first run (this
also covers the throwing runs, which leave the state untouched). -/
theorem setBannerDisplay_idempotent (s : KargoState) (g : Geometry) :
    (setBannerDisplay (setBannerDisplay s g).1 g).1 = (setBannerDisplay s g).1 := by
  cases ht : s.top with
  | none => simp [setBannerDisplay, ht]
  | some a =>
    cases hb : s.bottom with
    | none => simp [setBannerDisplay, ht, hb]
    | some b =>
      rw [setBannerDisplay_eq_displayStep s ht hb g]
      rw [setBannerDisplay_eq_displayStep
        { s with container := displayStep s.container a b g } ht hb g]
      simp [displayStep_idem]

/-! ### Claim C8 -/

/-- C8: a registered banner whose configuration has `hide = false` is never
touched by the scroll-driven recomputation — its rendered element (display
included) reads back unchanged after any `setBannerDisplay` run. -/
theorem hide_false_frame (s : KargoState) (g : Geometry) (h : Reachable s) :
    (∀ a, s.top = some a → a.config.hide = false →
      getById (setBannerDisplay s g).1.container a.elemId = getById s.container a.elemId)
    ∧ (∀ b, s.bottom = some b → b.config.hide = false →
      getById (setBannerDisplay s g).1.container b.elemId = getById s.container b.elemId) := by
  have hw := wf_reachable h
  cases ht : s.top with
  | none =>
    have hstate : (setBannerDisplay s g).1 = s := by simp [setBannerDisplay, ht]
    rw [hstate]
    exact ⟨fun a _ _ => rfl, fun b _ _ => rfl⟩
  | some a0 =>
    cases hb : s.bottom with
    | none =>
      have hstate : (setBannerDisplay s g).1 = s := by simp [setBannerDisplay, ht, hb]
      rw [hstate]
      exact ⟨fun a _ _ => rfl, fun b _ _ => rfl⟩
    | some b0 =>
      have hne : a0.elemId ≠ b0.elemId :=
        hw.distinct Pos.top Pos.bottom a0 b0 (by decide) ht hb
      constructor
      · intro a ha hhide
        have haa : a = a0 := (Option.some.inj ha).symm
        subst haa
        rw [setBannerDisplay_eq_displayStep s ht hb g]
        exact getById_displayStep_hide_false_top hne hhide
      · intro b hb' hhide
        have hbb : b = b0 := (Option.some.inj hb').symm
        subst hbb
        rw [setBannerDisplay_eq_displayStep s ht hb g]
        exact getById_displayStep_hide_false_bot (Ne.symm hne) hhide

theorem hide_false_frame_witness :
    getById (setBannerDisplay replacedTopState visibleBlockerGeom).1.container 1
      = getById replacedTopState.container 1 :=
  (hide_false_frame replacedTopState visibleBlockerGeom
    ⟨[Op.create "a" { position := Pos.top, hide := false },
      Op.create "b" { position := Pos.top, hide := false }], rfl⟩).1
    { elemId := 1, config := { position := Pos.top, hide := false } } rfl rfl

/-! ### Claim C2 -/

/-- C2 counterexample: with only a top banner registered (configured
`hide = true`) and a blocker intersecting the viewport, the scroll handler
throws a `TypeError` and leaves the banner's display untouched — `'none'` is
never written, contradicting the claim as stated for every registered banner. -/
theorem visibility_toggle_counterexample :
    isBlockerVisible visibleBlockerGeom = true
    ∧ singleTopState.top
        = some { elemId := 0, config := { position := Pos.top, hide := true } }
    ∧ (setBannerDisplay singleTopState visibleBlockerGeom).2 = some JsError.typeError
    ∧ (setBannerDisplay singleTopState visibleBlockerGeom).1 = singleTopState
    ∧ ∀ e ∈ (setBannerDisplay singleTopState visibleBlockerGeom).1.container,
        e.display ≠ some "none" := by
  refine ⟨rfl, rfl, rfl, rfl, ?_⟩
  decide

/-- C2 (amended): provided both positions hold registered banners, a scroll
event sets the display of each banner configured `hide = true` to `'none'`
exactly when the blocker visibility computation returns true and to `'block'`
when it returns false; in particular a blocker moved out of the viewport
restores `'block'`. -/
theorem visibility_toggle_amended (s : KargoState) (g : Geometry) (h : Reachable s)
    {a b : StoredBanner} (ht : s.top = some a) (hb : s.bottom = some b) :
    (a.config.hide = true →
      ∃ e, getById (setBannerDisplay s g).1.container a.elemId = some e
        ∧ e.display = some (if isBlockerVisible g then "none" else "block"))
    ∧ (b.config.hide = true →
      ∃ e, getById (setBannerDisplay s g).1.container b.elemId = some e
        ∧ e.display = some (if isBlockerVisible g then "none" else "block")) := by
  have hw := wf_reachable h
  have hne : a.elemId ≠ b.elemId :=
    hw.distinct Pos.top Pos.bottom a b (by decide) ht hb
  obtain ⟨ea, hga⟩ : ∃ e, getById s.container a.elemId = some e := by
    obtain ⟨e', he', hei⟩ : ∃ e' ∈ s.container, e'.id = a.elemId := by
      simpa using hw.slotMem Pos.top a ht
    exact Option.isSome_iff_exists.mp (getById_isSome_of_mem he' hei)
  obtain ⟨eb, hgb⟩ : ∃ e, getById s.container b.elemId = some e := by
    obtain ⟨e', he', hei⟩ : ∃ e' ∈ s.container, e'.id = b.elemId := by
      simpa using hw.slotMem Pos.bottom b hb
    exact Option.isSome_iff_exists.mp (getById_isSome_of_mem he' hei)
  constructor
  · intro hhide
    rw [setBannerDisplay_eq_displayStep s ht hb g]
    exact ⟨_, getById_displayStep_hide_true_top hne hhide hga, rfl⟩
  · intro hhide
    rw [setBannerDisplay_eq_displayStep s ht hb g]
    exact ⟨_, getById_displayStep_hide_true_bot (Ne.symm hne) hhide hgb, rfl⟩

theorem visibility_toggle_amended_witness :
    ∃ e, getById (setBannerDisplay bothState visibleBlockerGeom).1.container 0 = some e
      ∧ e.display = some (if isBlockerVisible visibleBlockerGeom then "none" else "block") :=
  (visibility_toggle_amended bothState visibleBlockerGeom
    ⟨[Op.create "a" { position := Pos.top, hide := true },
      Op.create "b" { position := Pos.bottom, hide := true }], rfl⟩ rfl rfl).1 rfl

/-! ### Claim C1 -/

/-- C1: in every reachable state each position's registered banner has exactly
one rendered element in the container, and constructing a new banner at an
occupied position strictly replaces the prior one: the construction succeeds,
the slot holds only the new instance, the prior instance's rendered element is
gone from the container, and the new element occurs exactly once. -/
theorem registry_replace_invariant (s : KargoState) (h : Reachable s) :
    (∀ pos a, slotOf s pos = some a →
      (s.container.map Elem.id).count a.elemId = 1)
    ∧ (∀ html config old, slotOf s config.position = some old →
        (renderBanner s html config).2 = none
        ∧ slotOf (renderBanner s html config).1 config.position
            = some { elemId := s.nextId, config := config }
        ∧ old.elemId ∉ (renderBanner s html config).1.container.map Elem.id
        ∧ ((renderBanner s html config).1.container.map Elem.id).count s.nextId = 1) := by
  have hw := wf_reachable h
  constructor
  · intro pos a hpos
    exact List.count_eq_one_of_mem hw.nodup (hw.slotMem pos a hpos)
  · intro html config old hslot
    rw [renderBanner_replace hw hslot html]
    refine ⟨rfl, ?_, ?_, ?_⟩
    · simp only [storeBanner]
      rw [slotOf_install, if_pos rfl]
    · simp only [storeBanner]
      rw [container_install]
      simp only [List.map_append, List.map_cons, List.map_nil, List.mem_append,
        List.mem_singleton, mkBannerElem]
      intro hmem
      rcases hmem with hmem | hmem
      · obtain ⟨e, he, hei⟩ := List.mem_map.mp hmem
        exact not_mem_removeById hw.nodup e he hei
      · have hlt := hw.fresh old.elemId (hw.slotMem _ _ hslot)
        rw [hmem] at hlt
        exact absurd hlt (lt_irrefl _)
    · simp only [storeBanner]
      rw [container_install]
      simp only [List.map_append, List.map_cons, List.map_nil, mkBannerElem]
      rw [List.count_append]
      have h0 : ((removeById s.container old.elemId).map Elem.id).count s.nextId = 0 := by
        rw [List.count_eq_zero]
        intro hmem
        have hsub : List.Sublist ((removeById s.container old.elemId).map Elem.id)
            (s.container.map Elem.id) := (removeById_sublist _ _).map Elem.id
        exact absurd (hw.fresh _ (hsub.subset hmem)) (lt_irrefl _)
      rw [h0]
      simp

theorem registry_replace_invariant_witness :
    (renderBanner singleTopState "b" { position := Pos.top, hide := true }).2 = none
    ∧ slotOf (renderBanner singleTopState "b" { position := Pos.top, hide := true }).1 Pos.top
        = some { elemId := 1, config := { position := Pos.top, hide := true } }
    ∧ (0 : Nat) ∉ (renderBanner singleTopState "b"
        { position := Pos.top, hide := true }).1.container.map Elem.id
    ∧ ((renderBanner singleTopState "b"
        { position := Pos.top, hide := true }).1.container.map Elem.id).count 1 = 1 :=
  (registry_replace_invariant singleTopState
    ⟨[Op.create "ad" { position := Pos.top, hide := true }], rfl⟩).2
    "b" { position := Pos.top, hide := true }
    { elemId := 0, config := { position := Pos.top, hide := true } } rfl

/-! ### Claim C9 -/

/-- C9: constructing a banner never evicts or modifies the other position —
the other slot and its rendered element (in particular its display state) are
exactly what they were before the construction. -/
theorem position_independence (s : KargoState) (h : Reachable s) (html : String)
    (config : Config) (q : Pos) (hq : q ≠ config.position) :
    slotOf (renderBanner s html config).1 q = slotOf s q
    ∧ (∀ bq, slotOf s q = some bq →
        getById (renderBanner s html config).1.container bq.elemId
          = getById s.container bq.elemId) := by
  have hw := wf_reachable h
  cases hslot : slotOf s config.position with
  | none =>
    rw [renderBanner_insert hslot html]
    constructor
    · simp only [storeBanner]
      rw [slotOf_install, if_neg hq]
    · intro bq hbq
      simp only [storeBanner]
      rw [container_install]
      obtain ⟨e', hge⟩ : ∃ e', getById s.container bq.elemId = some e' := by
        obtain ⟨e, he, hei⟩ : ∃ e ∈ s.container, e.id = bq.elemId := by
          simpa using hw.slotMem q bq hbq
        exact Option.isSome_iff_exists.mp (getById_isSome_of_mem he hei)
      rw [getById_append_left hge, hge]
  | some old =>
    rw [renderBanner_replace hw hslot html]
    constructor
    · simp only [storeBanner]
      rw [slotOf_install, if_neg hq]
    · intro bq hbq
      simp only [storeBanner]
      rw [container_install]
      have hne : bq.elemId ≠ old.elemId :=
        hw.distinct q config.position bq old hq hbq hslot
      have hrem : getById (removeById s.container old.elemId) bq.elemId
          = getById s.container bq.elemId := getById_removeById_ne hne
      obtain ⟨e', hge⟩ : ∃ e', getById s.container bq.elemId = some e' := by
        obtain ⟨e, he, hei⟩ : ∃ e ∈ s.container, e.id = bq.elemId := by
          simpa using hw.slotMem q bq hbq
        exact Option.isSome_iff_exists.mp (getById_isSome_of_mem he hei)
      rw [getById_append_left (hrem.trans hge), hge]

theorem position_independence_witness :
    slotOf (renderBanner bothState "c" { position := Pos.top, hide := false }).1 Pos.bottom
      = slotOf bothState Pos.bottom :=
  (position_independence bothState
    ⟨[Op.create "a" { position := Pos.top, hide := true },
      Op.create "b" { position := Pos.bottom, hide := true }], rfl⟩
    "c" { position := Pos.top, hide := false } Pos.bottom (by decide)).1

/-! ### Destroy on an occupied slot (shared by C6 and C7) -/

theorem removeBanner_clears {s : KargoState} {pos : Pos} {stored : StoredBanner}
    (hw : WF s) (hslot : slotOf s pos = some stored) :
    (removeBanner s pos).2 = none
    ∧ slotOf (removeBanner s pos).1 pos = none
    ∧ stored.elemId ∉ (removeBanner s pos).1.container.map Elem.id := by
  rw [removeBanner_occupied hw hslot]
  refine ⟨rfl, ?_, ?_⟩
  · rw [slotOf_clear, if_pos rfl]
  · intro hmem
    obtain ⟨e, he, hei⟩ := List.mem_map.mp hmem
    exact not_mem_removeById hw.nodup e he hei

/-! ### Claim C6 -/

/-- C6: destroying the currently active banner at a position succeeds, removes
its rendered element from the document and empties its registry slot, so a
subsequent construction at that position takes the plain-insertion path (no
eviction: the new container is the old one with the new element appended). -/
theorem destroy_active_spec (s : KargoState) (h : Reachable s) {pos : Pos}
    {inst : StoredBanner} (hslot : slotOf s pos = some inst) :
    (removeBanner s pos).2 = none
    ∧ slotOf (removeBanner s pos).1 pos = none
    ∧ inst.elemId ∉ (removeBanner s pos).1.container.map Elem.id
    ∧ hasBanner (removeBanner s pos).1 pos = false
    ∧ (∀ html config, config.position = pos →
        (renderBanner (removeBanner s pos).1 html config).2 = none
        ∧ (renderBanner (removeBanner s pos).1 html config).1.container
            = (removeBanner s pos).1.container
              ++ [mkBannerElem (removeBanner s pos).1.nextId html config]) := by
  have hw := wf_reachable h
  obtain ⟨h1, h2, h3⟩ := removeBanner_clears hw hslot
  refine ⟨h1, h2, h3, ?_, ?_⟩
  · simp [hasBanner, h2]
  · intro html config hcfg
    have hnone : slotOf (removeBanner s pos).1 config.position = none := by
      rw [hcfg]
      exact h2
    rw [renderBanner_insert hnone html]
    refine ⟨rfl, ?_⟩
    simp only [storeBanner]
    rw [container_install]

theorem destroy_active_spec_witness :
    (removeBanner bothState Pos.bottom).2 = none
    ∧ slotOf (removeBanner bothState Pos.bottom).1 Pos.bottom = none :=
  ⟨(destroy_active_spec bothState
      ⟨[Op.create "a" { position := Pos.top, hide := true },
        Op.create "b" { position := Pos.bottom, hide := true }], rfl⟩
      (rfl : slotOf bothState Pos.bottom
        = some { elemId := 1, config := { position := Pos.bottom, hide := true } })).1,
   (destroy_active_spec bothState
      ⟨[Op.create "a" { position := Pos.top, hide := true },
        Op.create "b" { position := Pos.bottom, hide := true }], rfl⟩
      (rfl : slotOf bothState Pos.bottom
        = some { elemId := 1, config := { position := Pos.bottom, hide := true } })).2.1⟩

/-! ### Claim C7 -/

/-- C7 counterexample: after banner "a" at top is evicted by creating "b" at
top, destroying through the stale "a" handle (only its config's position is
consulted) throws nothing — in particular not from the DOM removal call — and
instead removes the replacement's element and clears the slot. -/
theorem stale_destroy_counterexample :
    replacedTopState.top
        = some { elemId := 1, config := { position := Pos.top, hide := false } }
    ∧ (removeBanner replacedTopState Pos.top).2 = none
    ∧ (removeBanner replacedTopState Pos.top).1.top = none
    ∧ (removeBanner replacedTopState Pos.top).1.container = [] :=
  ⟨rfl, rfl, rfl, rfl⟩

/-- C7 (amended): stale-handle destroy is a caller hazard but never throws from
the DOM removal call: `destroy()` through a handle whose position slot is the
empty object throws a `TypeError` while reading the slot, before any DOM or
store mutation; `destroy()` through a handle whose position slot meanwhile
holds another (replacement) instance throws nothing and instead clears that
slot and removes the replacement's element. -/
theorem stale_destroy_amended (s : KargoState) :
    (∀ pos, slotOf s pos = none → removeBanner s pos = (s, some JsError.typeError))
    ∧ (Reachable s → ∀ pos cur, slotOf s pos = some cur →
        (removeBanner s pos).2 = none
        ∧ slotOf (removeBanner s pos).1 pos = none
        ∧ cur.elemId ∉ (removeBanner s pos).1.container.map Elem.id) := by
  constructor
  · intro pos hnone
    simp [removeBanner, hnone]
  · intro h pos cur hslot
    exact removeBanner_clears (wf_reachable h) hslot

theorem stale_destroy_amended_witness :
    removeBanner initState Pos.top = (initState, some JsError.typeError) :=
  (stale_destroy_amended initState).1 Pos.top rfl

end Kargo
